import Mathlib

/-!
Shallow embedding of the anti-bot header pipeline of the X bot API repository.

The embedded source files are:
* `src/utils/xpffGenerator.js` — the device-fingerprint cipher
  (`generateXPFF`, `decodeXPFF`);
* `src/utils/goStyleDirectApiFix.js` — the Go-style request assembler and
  response interpreter (`createDirectPost`, `replyDirectToPost`) and the
  "403 fix" variant concatenated in the same file.

Bytes are modelled as `Fin 256`; Node `Buffer`s as `List (Fin 256)`; the
Node `crypto` library (an external dependency, not repository code) is
modelled as a record of fallible primitives (`CryptoLib`) whose
AES-256-GCM contract is stated separately (`LawfulCrypto`).
-/

namespace XBot

abbrev Byte := Fin 256

/-- Build a byte from a natural number (all call sites stay below 256). -/
def mkByte (n : Nat) : Byte := ⟨n % 256, Nat.mod_lt _ (by decide)⟩

/-! ### Hex encoding (Node `buffer.toString('hex')` / `Buffer.from(str,'hex')`) -/

/-- Lower-case hex digit for a value `< 16`, as produced by
`buffer.toString('hex')`. -/
def hexDigitChar (n : Nat) : Char :=
  if n < 10 then Char.ofNat (48 + n) else Char.ofNat (87 + n)

/-- The two hex characters of one byte. -/
def byteToHexPair (b : Byte) : List Char :=
  [hexDigitChar (b.val / 16), hexDigitChar (b.val % 16)]

/-- `buffer.toString('hex')` on a byte list. -/
def bytesToHexList (bs : List Byte) : List Char :=
  bs.foldr (fun b acc => byteToHexPair b ++ acc) []

/-- `buffer.toString('hex')` as a `String`. -/
def bytesToHex (bs : List Byte) : String := ⟨bytesToHexList bs⟩

/-- Value of one hex character (either case), `none` if not a hex digit. -/
def hexCharVal (c : Char) : Option Nat :=
  if 48 ≤ c.toNat ∧ c.toNat ≤ 57 then some (c.toNat - 48)
  else if 97 ≤ c.toNat ∧ c.toNat ≤ 102 then some (c.toNat - 87)
  else if 65 ≤ c.toNat ∧ c.toNat ≤ 70 then some (c.toNat - 55)
  else none

/-- `Buffer.from(str, 'hex')`: decode full hex pairs from the front,
stopping at the first invalid pair; a trailing lone character is dropped. -/
def hexToBytes : List Char → List Byte
  | c1 :: c2 :: rest =>
    match hexCharVal c1, hexCharVal c2 with
    | some h, some l => mkByte (16 * h + l) :: hexToBytes rest
    | _, _ => []
  | _ => []

/-! ### UTF-8 byte length (Node `Buffer.byteLength` / `cipher.update(s,'utf8')`) -/

/-- UTF-8 encoding of one Unicode scalar value. -/
def utf8EncodeChar (c : Char) : List Byte :=
  let n := c.toNat
  if n < 0x80 then [mkByte n]
  else if n < 0x800 then [mkByte (0xC0 + n / 64), mkByte (0x80 + n % 64)]
  else if n < 0x10000 then
    [mkByte (0xE0 + n / 4096), mkByte (0x80 + (n / 64) % 64), mkByte (0x80 + n % 64)]
  else
    [mkByte (0xF0 + n / 262144), mkByte (0x80 + (n / 4096) % 64),
     mkByte (0x80 + (n / 64) % 64), mkByte (0x80 + n % 64)]

/-- UTF-8 encoding of a string, as Node produces for `'utf8'` conversions. -/
def utf8Encode (s : String) : List Byte :=
  s.data.foldr (fun c acc => utf8EncodeChar c ++ acc) []

/-- `Buffer.byteLength(s)`: the UTF-8 byte length of `s`. -/
def byteLength (s : String) : Nat := (utf8Encode s).length

/-! ### JSON values and `JSON.stringify` -/

/-- JSON value tree; object fields keep insertion order, as JavaScript
object literals and `JSON.stringify` do. -/
inductive JValue where
  | nullJ : JValue
  | boolJ : Bool → JValue
  | numJ : Nat → JValue
  | strJ : String → JValue
  | arrJ : List JValue → JValue
  | objJ : List (String × JValue) → JValue

/-- `JSON.stringify` escaping of a single character inside a string
literal (quote, backslash, control characters; everything else verbatim). -/
def jsonEscapeChar (c : Char) : String :=
  if c = '"' then "\\\""
  else if c = '\\' then "\\\\"
  else if c.toNat = 8 then "\\b"
  else if c.toNat = 9 then "\\t"
  else if c.toNat = 10 then "\\n"
  else if c.toNat = 12 then "\\f"
  else if c.toNat = 13 then "\\r"
  else if c.toNat < 32 then
    "\\u00" ++ ⟨[hexDigitChar (c.toNat / 16), hexDigitChar (c.toNat % 16)]⟩
  else String.singleton c

/-- `JSON.stringify` of a string value. -/
def jsonEscapeString (s : String) : String :=
  "\"" ++ s.data.foldr (fun c acc => jsonEscapeChar c ++ acc) "" ++ "\""

mutual

/-- `JSON.stringify` over the JSON value tree. -/
def serializeJ : JValue → String
  | .nullJ => "null"
  | .boolJ b => if b then "true" else "false"
  | .numJ n => toString n
  | .strJ s => jsonEscapeString s
  | .arrJ xs => "[" ++ serializeArr xs ++ "]"
  | .objJ fs => "\x7b" ++ serializeObj fs ++ "\x7d"

/-- Comma-separated serialization of array elements. -/
def serializeArr : List JValue → String
  | [] => ""
  | [x] => serializeJ x
  | x :: y :: xs => serializeJ x ++ "," ++ serializeArr (y :: xs)

/-- Comma-separated serialization of object fields. -/
def serializeObj : List (String × JValue) → String
  | [] => ""
  | [(k, v)] => jsonEscapeString k ++ ":" ++ serializeJ v
  | (k, v) :: f :: fs =>
    jsonEscapeString k ++ ":" ++ serializeJ v ++ "," ++ serializeObj (f :: fs)

end

/-- Property access `v[k]` on a JSON value (first field wins, as in JS
objects built from literals); non-objects have no properties. -/
def jGet (v : JValue) (k : String) : Option JValue :=
  match v with
  | .objJ fs => fs.lookup k
  | _ => none

/-- Optional chaining `v?.k`. -/
def jChain (v : Option JValue) (k : String) : Option JValue :=
  v.bind (fun w => jGet w k)

/-- JavaScript truthiness of a JSON value. -/
def jTruthy : JValue → Bool
  | .nullJ => false
  | .boolJ b => b
  | .numJ n => decide (n ≠ 0)
  | .strJ s => decide (s ≠ "")
  | .arrJ _ => true
  | .objJ _ => true

/-! ### JavaScript `Buffer.subarray` -/

/-- Resolve a possibly negative JS `subarray` index against a buffer
length: negative indexes count from the end, and the result is clamped
into `[0, len]`. -/
def jsIndex (len : Nat) (i : Int) : Nat :=
  if i < 0 then ((len : Int) + i).toNat else min i.toNat len

/-- `buffer.subarray(s, e)` (empty when the resolved end is not past the
resolved start). -/
def jsSubarray (b : List Byte) (s e : Int) : List Byte :=
  (b.take (jsIndex b.length e)).drop (jsIndex b.length s)

/-! ### The Node `crypto` primitives used by `xpffGenerator.js`

The repository calls four library primitives: `createHash('sha256')`,
`randomBytes`, AES-256-GCM encryption (`createCipheriv` + `update` +
`final` + `getAuthTag`) and AES-256-GCM decryption (`createDecipheriv` +
`setAuthTag` + `update` + `final`).  Each can throw, which the source
catches; here each is a function into `Except`. -/

structure CryptoLib where
  /-- `createHash('sha256').update(s).digest()`. -/
  shaE : String → Except String (List Byte)
  /-- `crypto.randomBytes n`. -/
  randE : Nat → Except String (List Byte)
  /-- AES-256-GCM encryption: key, nonce, plaintext to (ciphertext, tag). -/
  encE : List Byte → List Byte → List Byte → Except String (List Byte × List Byte)
  /-- AES-256-GCM decryption: key, nonce, ciphertext, tag to plaintext;
  every library throw (bad IV, bad tag length, failed authentication)
  is an `error`. -/
  decE : List Byte → List Byte → List Byte → List Byte → Except String (List Byte)

/-- The AES-256-GCM contract the Node library satisfies: decryption
inverts encryption (for the nonempty nonces GCM accepts), tags are
16 bytes, ciphertext and plaintext have equal length, and a successful
decryption certifies that the pieces are the unique encryption of the
recovered plaintext (AEAD authenticity). -/
structure LawfulCrypto (L : CryptoLib) : Prop where
  dec_enc : ∀ k n p c t, n ≠ [] → L.encE k n p = .ok (c, t) →
    L.decE k n c t = .ok p
  enc_tag_len : ∀ k n p c t, L.encE k n p = .ok (c, t) → t.length = 16
  enc_ct_len : ∀ k n p c t, L.encE k n p = .ok (c, t) → c.length = p.length
  dec_auth : ∀ k n c t p, L.decE k n c t = .ok p → L.encE k n p = .ok (c, t)

/-! ### `xpffGenerator.js` -/

/-- Base key hardcoded in the WASM module (`xpffGenerator.js`). -/
def baseKey : String :=
  "0e6be1f1e21ffc33590b888fd4dc81b19713e570e805d4e5df80a493c9571a05"

/-- The fingerprint payload object built by `generateXPFF`
(`created_at` is the `Date.now()` millisecond timestamp). -/
def payloadJ (now : Nat) : JValue :=
  .objJ [("navigator_properties", .objJ
            [("hasBeenActive", .strJ "true"),
             ("userAgent", .strJ "Mozilla/5.0 (Windows NT 10.0; Win64; x64) AppleWebKit/537.36 (KHTML, like Gecko) Chrome/124.0.0.0 Safari/537.36"),
             ("webdriver", .strJ "false")]),
         ("created_at", .numJ now)]

/-- `JSON.stringify` of the fingerprint payload. -/
def payloadString (now : Nat) : String := serializeJ (payloadJ now)

/-- UTF-8 bytes of the canonical JSON fingerprint payload — the exact
plaintext handed to the AES-GCM cipher by `generateXPFF`. -/
def payloadBytes (now : Nat) : List Byte := utf8Encode (payloadString now)

/-- `generateXPFF(guestId)` of `xpffGenerator.js`: derive the key as
SHA-256 of `baseKey + guestId`, encrypt the payload under a fresh
12-byte nonce with AES-256-GCM, and hex-encode `nonce ++ ciphertext ++
tag`; any error in the pipeline is caught and the empty string is
returned.  `now` is the ambient `Date.now()` value and `L` the crypto
library. -/
def generateXPFF (L : CryptoLib) (guestId : String) (now : Nat) : String :=
  let r : Except String String := do
    let derivedKey ← L.shaE (baseKey ++ guestId)
    let payload := payloadString now
    let nonce ← L.randE 12
    let (encrypted, authTag) ← L.encE derivedKey nonce (utf8Encode payload)
    pure (bytesToHex (nonce ++ encrypted ++ authTag))
  match r with
  | .ok s => s
  | .error _ => ""

/-- `decodeXPFF(xpffHex, guestId)` of `xpffGenerator.js`: derive the same
key, hex-decode the input, slice nonce (`subarray(0,12)`), auth tag
(`subarray(length-16)`) and ciphertext (`subarray(12, length-16)`), and
decrypt; any error is caught and `null` (here `none`) is returned.  The
source returns `decrypted.toString('utf8')`; the plaintext is modelled
by its UTF-8 bytes. -/
def decodeXPFF (L : CryptoLib) (xpffHex : String) (guestId : String) :
    Option (List Byte) :=
  let r : Except String (List Byte) := do
    let derivedKey ← L.shaE (baseKey ++ guestId)
    let buffer := hexToBytes xpffHex.data
    let nonce := jsSubarray buffer 0 12
    let authTag := jsSubarray buffer ((buffer.length : Int) - 16) (buffer.length : Int)
    let ciphertext := jsSubarray buffer 12 ((buffer.length : Int) - 16)
    L.decE derivedKey nonce ciphertext authTag
  r.toOption

/-! ### A concrete lawful crypto instance (for witnesses)

A toy AEAD standing in for the external AES-256-GCM primitive: the
ciphertext is the plaintext and the tag is a fixed 16-byte value; it
satisfies every clause of `LawfulCrypto`. -/

/-- The toy instance's constant 16-byte authentication tag. -/
def toyTag : List Byte := List.replicate 16 (1 : Fin 256)

/-- Toy crypto library used to instantiate witnesses. -/
def toyCrypto : CryptoLib where
  shaE := fun _ => .ok (List.replicate 32 (0 : Fin 256))
  randE := fun n => .ok (List.replicate n (7 : Fin 256))
  encE := fun _ _ p => .ok (p, toyTag)
  decE := fun _ n c t =>
    if n ≠ [] ∧ t = toyTag then .ok c else .error "Unsupported state"

/-- A second toy library, identical except for the randomness source —
it models a second call to `generateXPFF` that drew different random
bytes. -/
def toyCrypto2 : CryptoLib where
  shaE := toyCrypto.shaE
  randE := fun n => .ok (List.replicate n (9 : Fin 256))
  encE := toyCrypto.encE
  decE := toyCrypto.decE

theorem toyCrypto_lawful : LawfulCrypto toyCrypto := by
  constructor
  · intro k n p c t hn henc
    simp only [toyCrypto, Except.ok.injEq, Prod.mk.injEq] at henc
    simp [toyCrypto, hn, henc.1, henc.2]
  · intro k n p c t henc
    simp only [toyCrypto, Except.ok.injEq, Prod.mk.injEq] at henc
    simp [← henc.2, toyTag]
  · intro k n p c t henc
    simp only [toyCrypto, Except.ok.injEq, Prod.mk.injEq] at henc
    simp [← henc.1]
  · intro k n c t p hdec
    simp only [toyCrypto] at hdec ⊢
    by_cases h : n ≠ [] ∧ t = toyTag
    · simp only [h, if_pos, and_self] at hdec
      simp_all
    · simp [h] at hdec

/-! ### Hex round-trip lemmas -/

theorem hexCharVal_hexDigitChar :
    ∀ n : Fin 16, hexCharVal (hexDigitChar n.val) = some n.val := by decide

theorem hexToBytes_pair (b : Byte) (rest : List Char) :
    hexToBytes (byteToHexPair b ++ rest) = b :: hexToBytes rest := by
  have h1 : hexCharVal (hexDigitChar (b.val / 16)) = some (b.val / 16) :=
    hexCharVal_hexDigitChar ⟨b.val / 16, by omega⟩
  have h2 : hexCharVal (hexDigitChar (b.val % 16)) = some (b.val % 16) :=
    hexCharVal_hexDigitChar ⟨b.val % 16, by omega⟩

  have hb : 16 * (b.val / 16) + b.val % 16 = b.val := by omega
  simp only [byteToHexPair, List.cons_append, List.nil_append, hexToBytes, h1, h2, hb]
  congr 1
  exact Fin.ext (Nat.mod_eq_of_lt b.isLt)

theorem hexToBytes_bytesToHexList (bs : List Byte) :
    hexToBytes (bytesToHexList bs) = bs := by
  induction bs with
  | nil => rfl
  | cons b bs ih =>
    have : bytesToHexList (b :: bs) = byteToHexPair b ++ bytesToHexList bs := rfl
    rw [this, hexToBytes_pair, ih]

theorem hexToBytes_bytesToHex (bs : List Byte) :
    hexToBytes (bytesToHex bs).data = bs :=
  hexToBytes_bytesToHexList bs

/-! ### Buffer slicing lemmas for `decodeXPFF` -/

theorem jsSubarray_nonce (n c t : List Byte) (hn : n.length = 12) :
    jsSubarray (n ++ c ++ t) 0 12 = n := by
  have hlen : (n ++ c ++ t).length = 12 + c.length + t.length := by
    rw [List.length_append, List.length_append, hn]
  have hA : jsIndex (n ++ c ++ t).length 0 = 0 := by
    simp [jsIndex]
  have hB : jsIndex (n ++ c ++ t).length 12 = 12 := by
    simp only [jsIndex]
    rw [if_neg (by omega)]
    omega
  rw [jsSubarray, hA, hB, List.drop_zero, List.append_assoc, ← hn, List.take_left]

theorem jsSubarray_tag (n c t : List Byte) (hn : n.length = 12) (ht : t.length = 16) :
    jsSubarray (n ++ c ++ t) (((n ++ c ++ t).length : Int) - 16)
      ((n ++ c ++ t).length : Int) = t := by
  have hlen : (n ++ c ++ t).length = 12 + c.length + 16 := by
    rw [List.length_append, List.length_append, hn, ht]
  have hA : jsIndex (n ++ c ++ t).length (((n ++ c ++ t).length : Int) - 16) =
      (n ++ c).length := by
    have hcl : (n ++ c).length = 12 + c.length := by simp [List.length_append, hn]
    simp only [jsIndex]
    rw [if_neg (by omega)]
    omega
  have hB : jsIndex (n ++ c ++ t).length ((n ++ c ++ t).length : Int) =
      (n ++ c ++ t).length := by
    simp only [jsIndex]
    rw [if_neg (by omega)]
    omega
  rw [jsSubarray, hA, hB, List.take_length]
  exact List.drop_left (n ++ c) t

theorem jsSubarray_ct (n c t : List Byte) (hn : n.length = 12) (ht : t.length = 16) :
    jsSubarray (n ++ c ++ t) 12 (((n ++ c ++ t).length : Int) - 16) = c := by
  have hlen : (n ++ c ++ t).length = 12 + c.length + 16 := by
    rw [List.length_append, List.length_append, hn, ht]
  have hA : jsIndex (n ++ c ++ t).length 12 = 12 := by
    simp only [jsIndex]
    rw [if_neg (by omega)]
    omega
  have hB : jsIndex (n ++ c ++ t).length (((n ++ c ++ t).length : Int) - 16) =
      (n ++ c).length := by
    have hcl : (n ++ c).length = 12 + c.length := by simp [List.length_append, hn]
    simp only [jsIndex]
    rw [if_neg (by omega)]
    omega
  rw [jsSubarray, hA, hB]
  rw [show ((n ++ c ++ t) : List Byte) = (n ++ c) ++ t from rfl, List.take_left, ← hn,
    List.drop_left]

/-! ### Computation lemmas for the cipher pipeline -/

theorem generateXPFF_ok (L : CryptoLib) (g : String) (now : Nat)
    (key nonce ct tag : List Byte)
    (hsha : L.shaE (baseKey ++ g) = .ok key)
    (hrand : L.randE 12 = .ok nonce)
    (henc : L.encE key nonce (payloadBytes now) = .ok (ct, tag)) :
    generateXPFF L g now = bytesToHex (nonce ++ ct ++ tag) := by
  have hpb : utf8Encode (payloadString now) = payloadBytes now := rfl
  simp only [generateXPFF, bind, Except.bind, pure, Except.pure, hsha, hpb, hrand, henc]

theorem generateXPFF_error_sha (L : CryptoLib) (g : String) (now : Nat)
    (e : String) (hsha : L.shaE (baseKey ++ g) = .error e) :
    generateXPFF L g now = "" := by
  simp only [generateXPFF, bind, Except.bind, hsha]

theorem generateXPFF_error_rand (L : CryptoLib) (g : String) (now : Nat)
    (key : List Byte) (e : String)
    (hsha : L.shaE (baseKey ++ g) = .ok key)
    (hrand : L.randE 12 = .error e) :
    generateXPFF L g now = "" := by
  simp only [generateXPFF, bind, Except.bind, hsha, hrand]

theorem generateXPFF_error_enc (L : CryptoLib) (g : String) (now : Nat)
    (key nonce : List Byte) (e : String)
    (hsha : L.shaE (baseKey ++ g) = .ok key)
    (hrand : L.randE 12 = .ok nonce)
    (henc : L.encE key nonce (payloadBytes now) = .error e) :
    generateXPFF L g now = "" := by
  have hpb : utf8Encode (payloadString now) = payloadBytes now := rfl
  simp only [generateXPFF, bind, Except.bind, hsha, hpb, hrand, henc]

/-- C1: for every fingerprint payload produced by `generateXPFF` under a
guest id `g`, decrypting the hex output with `decodeXPFF` under the same
`g` recovers exactly the canonical JSON payload (as its UTF-8 bytes):
decrypt of encrypt is the identity on the plaintext. -/
theorem C1_decrypt_encrypt_roundtrip (L : CryptoLib) (hL : LawfulCrypto L)
    (g : String) (now : Nat) (key nonce ct tag : List Byte)
    (hsha : L.shaE (baseKey ++ g) = .ok key)
    (hrand : L.randE 12 = .ok nonce) (hlen : nonce.length = 12)
    (henc : L.encE key nonce (payloadBytes now) = .ok (ct, tag)) :
    decodeXPFF L (generateXPFF L g now) g = some (payloadBytes now) := by
  rw [generateXPFF_ok L g now key nonce ct tag hsha hrand henc]
  have htag : tag.length = 16 := hL.enc_tag_len _ _ _ _ _ henc
  have hbuf : hexToBytes (bytesToHex (nonce ++ ct ++ tag)).data = nonce ++ ct ++ tag :=
    hexToBytes_bytesToHex _
  have hnonce := jsSubarray_nonce nonce ct tag hlen
  have htagslice := jsSubarray_tag nonce ct tag hlen htag
  have hctslice := jsSubarray_ct nonce ct tag hlen htag
  have hne : nonce ≠ [] := by
    intro h; rw [h] at hlen; simp at hlen
  have hdec : L.decE key nonce ct tag = .ok (payloadBytes now) :=
    hL.dec_enc _ _ _ _ _ hne henc
  simp only [decodeXPFF, bind, Except.bind, hsha, hbuf, hnonce, htagslice, hctslice,
    hdec, Except.toOption]

/-- Witness for C1 at the toy crypto instance: nonce `7⋯7` of length 12,
guest id `"guest"`, timestamp 0. -/
theorem C1_witness :
    (List.replicate 12 (7 : Fin 256)).length = 12 ∧
      decodeXPFF toyCrypto (generateXPFF toyCrypto "guest" 0) "guest" =
        some (payloadBytes 0) :=
  ⟨rfl, C1_decrypt_encrypt_roundtrip toyCrypto toyCrypto_lawful "guest" 0
    (List.replicate 32 0) (List.replicate 12 7) (payloadBytes 0) toyTag
    rfl rfl rfl rfl⟩

/-- C2: two runs of `generateXPFF` on the same guest id and the same
payload that drew distinct fresh 12-byte nonces never produce identical
output strings (the nonce is the first 12 bytes of the hex output).  The
two `CryptoLib`s share the hash and cipher primitives and differ only in
the randomness they return — they model two calls of the one function
with fresh randomness. -/
theorem C2_nonce_freshness (L1 L2 : CryptoLib) (g : String) (now : Nat)
    (_hsha : L1.shaE = L2.shaE) (_henceq : L1.encE = L2.encE)
    (key1 key2 n1 n2 c1 t1 c2 t2 : List Byte)
    (hs1 : L1.shaE (baseKey ++ g) = .ok key1)
    (hs2 : L2.shaE (baseKey ++ g) = .ok key2)
    (hr1 : L1.randE 12 = .ok n1) (hr2 : L2.randE 12 = .ok n2)
    (hl1 : n1.length = 12) (hl2 : n2.length = 12) (hne : n1 ≠ n2)
    (he1 : L1.encE key1 n1 (payloadBytes now) = .ok (c1, t1))
    (he2 : L2.encE key2 n2 (payloadBytes now) = .ok (c2, t2)) :
    generateXPFF L1 g now ≠ generateXPFF L2 g now := by
  rw [generateXPFF_ok L1 g now key1 n1 c1 t1 hs1 hr1 he1,
    generateXPFF_ok L2 g now key2 n2 c2 t2 hs2 hr2 he2]
  intro h
  have hbytes : n1 ++ c1 ++ t1 = n2 ++ c2 ++ t2 := by
    have := congrArg (fun s : String => hexToBytes s.data) h
    simpa only [hexToBytes_bytesToHex] using this
  have h12 : (n1 ++ c1 ++ t1).take 12 = (n2 ++ c2 ++ t2).take 12 := by rw [hbytes]
  rw [List.append_assoc, List.append_assoc, ← hl1] at h12
  rw [List.take_left] at h12
  rw [hl1, ← hl2, List.take_left] at h12
  exact hne h12

/-- Witness for C2: the two toy libraries draw nonces `7⋯7` and `9⋯9`. -/
theorem C2_witness :
    List.replicate 12 (7 : Fin 256) ≠ List.replicate 12 (9 : Fin 256) ∧
      generateXPFF toyCrypto "guest" 0 ≠ generateXPFF toyCrypto2 "guest" 0 :=
  ⟨by decide,
   C2_nonce_freshness toyCrypto toyCrypto2 "guest" 0 rfl rfl
    (List.replicate 32 0) (List.replicate 32 0)
    (List.replicate 12 7) (List.replicate 12 9)
    (payloadBytes 0) toyTag (payloadBytes 0) toyTag
    rfl rfl rfl rfl rfl rfl (by decide) rfl rfl⟩

/-- C10: `generateXPFF` never throws — for every crypto library, guest id
and timestamp it either returns the empty string (some internal step
failed and the catch swallowed the error) or the well-formed hex encoding
of nonce, ciphertext and tag from a fully successful pipeline. -/
theorem C10_generateXPFF_never_throws (L : CryptoLib) (g : String) (now : Nat) :
    generateXPFF L g now = "" ∨
      ∃ key nonce ct tag,
        L.shaE (baseKey ++ g) = .ok key ∧ L.randE 12 = .ok nonce ∧
        L.encE key nonce (payloadBytes now) = .ok (ct, tag) ∧
        generateXPFF L g now = bytesToHex (nonce ++ ct ++ tag) := by
  cases hsha : L.shaE (baseKey ++ g) with
  | error e => exact Or.inl (generateXPFF_error_sha L g now e hsha)
  | ok key =>
    cases hrand : L.randE 12 with
    | error e => exact Or.inl (generateXPFF_error_rand L g now key e hsha hrand)
    | ok nonce =>
      cases henc : L.encE key nonce (payloadBytes now) with
      | error e => exact Or.inl (generateXPFF_error_enc L g now key nonce e hsha hrand henc)
      | ok pr =>
        exact Or.inr ⟨key, nonce, pr.1, pr.2, rfl, rfl, by rw [henc],
          generateXPFF_ok L g now key nonce pr.1 pr.2 hsha hrand (by rw [henc])⟩

/-! ### Index arithmetic for the `decodeXPFF` slices -/

theorem jsIndex_le (len : Nat) (i : Int) : jsIndex len i ≤ len := by
  unfold jsIndex
  split <;> omega

theorem jsSubarray_length (b : List Byte) (s e : Int) :
    (jsSubarray b s e).length = jsIndex b.length e - jsIndex b.length s := by
  have h := jsIndex_le b.length e
  simp only [jsSubarray, List.length_drop, List.length_take]
  omega

theorem jsIndex_self (len : Nat) : jsIndex len (len : Int) = len := by
  unfold jsIndex
  rw [if_neg (by omega)]
  omega

theorem jsIndex_sub16_lt (len : Nat) (h : len < 16) :
    jsIndex len ((len : Int) - 16) = 2 * len - 16 := by
  unfold jsIndex
  rw [if_pos (by omega)]
  omega

theorem jsIndex_sub16_ge (len : Nat) (h : 16 ≤ len) :
    jsIndex len ((len : Int) - 16) = len - 16 := by
  unfold jsIndex
  rw [if_neg (by omega)]
  omega

theorem jsIndex_12 (len : Nat) (h : 12 ≤ len) : jsIndex len 12 = 12 := by
  unfold jsIndex
  rw [if_neg (by omega)]
  omega

/-- C3 (amended): on a hex input whose decoded buffer is shorter than 28
bytes, `decodeXPFF` never raises and returns no typed format error: the
try/catch converts every internal failure into `null` (`none`); the only
other possible outcome is the degenerate case in which the overlapping
slices of the short buffer happen to authenticate, which returns the
empty plaintext. -/
theorem C3_short_input_decode (L : CryptoLib) (hL : LawfulCrypto L)
    (xpffHex g : String)
    (hshort : (hexToBytes xpffHex.data).length < 28) :
    decodeXPFF L xpffHex g = none ∨ decodeXPFF L xpffHex g = some [] := by
  cases hsha : L.shaE (baseKey ++ g) with
  | error e =>
    left
    simp only [decodeXPFF, bind, Except.bind, hsha, Except.toOption]
  | ok key =>
    set b := hexToBytes xpffHex.data with hb
    cases hdec : L.decE key (jsSubarray b 0 12)
        (jsSubarray b 12 ((b.length : Int) - 16))
        (jsSubarray b ((b.length : Int) - 16) (b.length : Int)) with
    | error e =>
      left
      simp only [decodeXPFF, bind, Except.bind, hsha, ← hb, hdec, Except.toOption]
    | ok p =>
      right
      have hauth := hL.dec_auth _ _ _ _ _ hdec
      have htag := hL.enc_tag_len _ _ _ _ _ hauth
      have hct := hL.enc_ct_len _ _ _ _ _ hauth
      have hlen16 : 16 ≤ b.length := by
        by_contra hlt
        push_neg at hlt
        rw [jsSubarray_length, jsIndex_self, jsIndex_sub16_lt _ hlt] at htag
        omega
      have hctlen : (jsSubarray b 12 ((b.length : Int) - 16)).length = 0 := by
        rw [jsSubarray_length, jsIndex_sub16_ge _ hlen16, jsIndex_12 _ (by omega)]
        omega
      have hp : p = [] := by
        rw [hctlen] at hct
        exact List.eq_nil_of_length_eq_zero hct.symm
      simp only [decodeXPFF, bind, Except.bind, hsha, ← hb, hdec, hp, Except.toOption]

/-- Witness for C3 (amended) on the two-character hex input `"ab"`, whose
decoded buffer has 1 byte. -/
theorem C3_witness :
    (hexToBytes ("ab".data)).length < 28 ∧
      (decodeXPFF toyCrypto "ab" "guest" = none ∨
        decodeXPFF toyCrypto "ab" "guest" = some []) :=
  ⟨by decide, C3_short_input_decode toyCrypto toyCrypto_lawful "ab" "guest" (by decide)⟩

/-- Counterexample for C3 as stated: a short (format-invalid) input and a
28-byte input whose tag fails authentication both return the single
failure value `null` (`none`) — the short input does not fail with a
distinct, typed `FormatError`; no such error class exists in
`decodeXPFF`, whose catch-all converts every internal error to `null`. -/
theorem C3_counterexample :
    decodeXPFF toyCrypto "" "guest" = none ∧
      decodeXPFF toyCrypto (bytesToHex (List.replicate 28 (0 : Fin 256))) "guest" = none ∧
      decodeXPFF toyCrypto "" "guest" =
        decodeXPFF toyCrypto (bytesToHex (List.replicate 28 (0 : Fin 256))) "guest" := by
  refine ⟨?_, ?_, ?_⟩ <;> decide

/-! ### `goStyleDirectApiFix.js` — target-id extraction -/

/-- The maximal digit run at the head of a character list (greedy `\d+`). -/
def takeDigits (l : List Char) : List Char := l.takeWhile Char.isDigit

/-- `postUrl.match(/\/status\/(\d+)/)`: at the leftmost position where
`"/status/"` is followed by at least one digit, capture the maximal
digit run. -/
def findStatusId : List Char → Option (List Char)
  | [] => none
  | c :: rest =>
    if (c :: rest).take 8 = "/status/".data ∧
        Char.isDigit (((c :: rest).drop 8).headD 'x') then
      some (takeDigits ((c :: rest).drop 8))
    else findStatusId rest

/-- Tweet-id extraction from a permalink URL (`tweetIdMatch[1]`). -/
def extractTweetId (url : String) : Option String :=
  (findStatusId url.data).map (fun l => ⟨l⟩)

/-! ### `goStyleDirectApiFix.js` — request assembly -/

/-- Constant bearer token — exactly the same as in Go. -/
def BEARER_TOKEN : String :=
  "AAAAAAAAAAAAAAAAAAAAANRILgAAAAAAnNwIzUejRCOuH5E6I8xnZz4puTs%3D1Zv7ttfk8LF81IUq16cHjhLTvJu4FA33AGWWjCpTnA"

/-- The fixed `features` flag bag sent with every create/reply call (the
source repeats the identical literal in both functions). -/
def featuresObj : JValue :=
  .objJ [("premium_content_api_read_enabled", .boolJ false),
         ("communities_web_enable_tweet_community_results_fetch", .boolJ true),
         ("c9s_tweet_anatomy_moderator_badge_enabled", .boolJ true),
         ("responsive_web_grok_analyze_button_fetch_trends_enabled", .boolJ false),
         ("responsive_web_grok_analyze_post_followups_enabled", .boolJ true),
         ("responsive_web_jetfuel_frame", .boolJ true),
         ("responsive_web_grok_share_attachment_enabled", .boolJ true),
         ("responsive_web_edit_tweet_api_enabled", .boolJ true),
         ("graphql_is_translatable_rweb_tweet_is_translatable_enabled", .boolJ true),
         ("view_counts_everywhere_api_enabled", .boolJ true),
         ("longform_notetweets_consumption_enabled", .boolJ true),
         ("responsive_web_twitter_article_tweet_consumption_enabled", .boolJ true),
         ("tweet_awards_web_tipping_enabled", .boolJ false),
         ("responsive_web_grok_show_grok_translated_post", .boolJ false),
         ("responsive_web_grok_analysis_button_from_backend", .boolJ true),
         ("creator_subscriptions_quote_tweet_preview_enabled", .boolJ false),
         ("longform_notetweets_rich_text_read_enabled", .boolJ true),
         ("longform_notetweets_inline_media_enabled", .boolJ true),
         ("payments_enabled", .boolJ false),
         ("profile_label_improvements_pcf_label_in_post_enabled", .boolJ true),
         ("rweb_tipjar_consumption_enabled", .boolJ true),
         ("verified_phone_label_enabled", .boolJ false),
         ("articles_preview_enabled", .boolJ true),
         ("responsive_web_grok_community_note_auto_translation_is_enabled", .boolJ false),
         ("responsive_web_graphql_skip_user_profile_image_extensions_enabled", .boolJ false),
         ("freedom_of_speech_not_reach_fetch_enabled", .boolJ true),
         ("standardized_nudges_misinfo", .boolJ true),
         ("tweet_with_visibility_results_prefer_gql_limited_actions_policy_enabled", .boolJ true),
         ("responsive_web_grok_image_annotation_enabled", .boolJ true),
         ("responsive_web_graphql_timeline_navigation_enabled", .boolJ true),
         ("responsive_web_enhance_cards_enabled", .boolJ false)]

/-- The `CreateTweet` body of `createDirectPost` (note the newline
appended to the content, like Go). -/
def postBodyObj (content : String) : JValue :=
  .objJ [("variables", .objJ
            [("tweet_text", .strJ (content ++ "\n")),
             ("dark_request", .boolJ false),
             ("media", .objJ [("media_entities", .arrJ []),
                              ("possibly_sensitive", .boolJ false)]),
             ("semantic_annotation_ids", .arrJ []),
             ("disallowed_reply_options", .nullJ)]),
         ("features", featuresObj),
         ("queryId", .strJ "F7hteriqzdRzvMfXM6Ul4w")]

/-- The `CreateTweet` body of `replyDirectToPost`: same structure with
the proper reply params; `in_reply_to_tweet_id` is a JSON string. -/
def replyBodyObj (content tweetIdString : String) : JValue :=
  .objJ [("variables", .objJ
            [("tweet_text", .strJ (content ++ "\n")),
             ("reply", .objJ [("in_reply_to_tweet_id", .strJ tweetIdString),
                              ("exclude_reply_user_ids", .arrJ [])]),
             ("dark_request", .boolJ false),
             ("media", .objJ [("media_entities", .arrJ []),
                              ("possibly_sensitive", .boolJ false)]),
             ("semantic_annotation_ids", .arrJ []),
             ("disallowed_reply_options", .nullJ)]),
         ("features", featuresObj),
         ("queryId", .strJ "F7hteriqzdRzvMfXM6Ul4w")]

/-- The header set of both direct-API calls, in the exact source order;
`Content-Length` is `Buffer.byteLength(bodyString).toString()`, computed
from the already-serialized body. -/
def goHeaders (authToken ct0 xpff bodyString : String) : List (String × String) :=
  [("Host", "x.com"),
   ("Cookie", "auth_token=" ++ authToken ++ "; ct0=" ++ ct0),
   ("Content-Length", toString (byteLength bodyString)),
   ("Sec-Ch-Ua-Platform", "\"Linux\""),
   ("Authorization", "Bearer " ++ BEARER_TOKEN),
   ("X-Csrf-Token", ct0),
   ("Accept-Language", "en-US,en;q=0.9"),
   ("Sec-Ch-Ua", "\"Not)A;Brand\";v=\"8\", \"Chromium\";v=\"138\""),
   ("X-Twitter-Client-Language", "en"),
   ("Sec-Ch-Ua-Mobile", "?0"),
   ("X-Twitter-Active-User", "yes"),
   ("X-Client-Transaction-Id", "PAtpENtMwY12l+8Tw4bvAj6EKHv6EWdZ9GJXlitAHYrL1dhK7KzWEAc93fI8N+iEE0tDBTiVuRJJov+NSnpm5MopwP3UPw"),
   ("X-Twitter-Auth-Type", "OAuth2Session"),
   ("User-Agent", "Mozilla/5.0 (X11; Linux x86_64) AppleWebKit/537.36 (KHTML, like Gecko) Chrome/138.0.0.0 Safari/537.36"),
   ("Content-Type", "application/json"),
   ("X-Xp-Forwarded-For", xpff),
   ("Accept", "*/*"),
   ("Origin", "https://x.com"),
   ("Sec-Fetch-Site", "same-origin"),
   ("Sec-Fetch-Mode", "cors"),
   ("Sec-Fetch-Dest", "empty"),
   ("Referer", "https://x.com/home"),
   ("Priority", "u=1, i")]

/-- An assembled outbound HTTP request. -/
structure Request where
  url : String
  headers : List (String × String)
  body : JValue
  bodyString : String

/-- The `CreateTweet` GraphQL endpoint URL. -/
def createTweetUrl : String :=
  "https://x.com/i/api/graphql/F7hteriqzdRzvMfXM6Ul4w/CreateTweet"

/-- Assembly of the create-post request (body serialized before the
`Content-Length` header is set). -/
def buildPostRequest (authToken ct0 xpff content : String) : Request :=
  let bodyString := serializeJ (postBodyObj content)
  { url := createTweetUrl,
    headers := goHeaders authToken ct0 xpff bodyString,
    body := postBodyObj content,
    bodyString := bodyString }

/-- Assembly of the reply request: refuses with `Invalid post URL format`
when no `/status/<digits>` id can be extracted from the permalink. -/
def buildReplyRequest (authToken ct0 xpff content postUrl : String) :
    Except String Request :=
  match extractTweetId postUrl with
  | none => .error "Invalid post URL format"
  | some tweetIdString =>
    let bodyString := serializeJ (replyBodyObj content tweetIdString)
    .ok { url := createTweetUrl,
          headers := goHeaders authToken ct0 xpff bodyString,
          body := replyBodyObj content tweetIdString,
          bodyString := bodyString }

/-! ### `goStyleDirectApiFix.js` — response interpretation -/

/-- The result object `createDirectPost` resolves to. -/
structure PostResult where
  success : Bool
  tweetId : Option JValue
  message : String
  status : Nat
  data : JValue

/-- The result object `replyDirectToPost` resolves to. -/
structure ReplyResult where
  success : Bool
  replyTweetId : Option JValue
  originalTweetId : String
  message : String
  status : Nat
  data : JValue

/-- `response.data?.data?.create_tweet?.tweet_results?.result?.rest_id`. -/
def restIdOfBody (body : JValue) : Option JValue :=
  jChain (jChain (jChain (jChain (jGet body "data") "create_tweet")
    "tweet_results") "result") "rest_id"

/-- Success/failure analysis of `createDirectPost` (first document,
lines 152-183): on a 200, success requires a truthy `rest_id` and is
revoked if a truthy `errors` field is present; any non-200 is a plain
failure with the status preserved. -/
def interpretCreate (status : Nat) (body : JValue) : PostResult :=
  if status = 200 then
    let idPart : Bool × Option JValue :=
      match restIdOfBody body with
      | some v => if jTruthy v then (true, some v) else (false, none)
      | none => (false, none)
    let success : Bool :=
      match jGet body "errors" with
      | some e => if jTruthy e then false else idPart.1
      | none => idPart.1
    { success := success, tweetId := idPart.2,
      message := if success then "Post published successfully" else "Failed to post",
      status := status, data := body }
  else
    { success := false, tweetId := none, message := "Failed to post",
      status := status, data := body }

/-- Success/failure analysis of `replyDirectToPost` (first document,
lines 349-381), same logic as the post interpreter. -/
def interpretReply (status : Nat) (body : JValue) (tweetIdString : String) :
    ReplyResult :=
  if status = 200 then
    let idPart : Bool × Option JValue :=
      match restIdOfBody body with
      | some v => if jTruthy v then (true, some v) else (false, none)
      | none => (false, none)
    let success : Bool :=
      match jGet body "errors" with
      | some e => if jTruthy e then false else idPart.1
      | none => idPart.1
    { success := success, replyTweetId := idPart.2, originalTweetId := tweetIdString,
      message := if success then "Reply published successfully" else "Failed to reply",
      status := status, data := body }
  else
    { success := false, replyTweetId := none, originalTweetId := tweetIdString,
      message := "Failed to reply", status := status, data := body }

/-! ### `goStyleDirectApiFix.js` — the full flows -/

/-- The ambient state a direct-API call runs against: the results of
`getAuthToken()` and `getCT0Cookie()` (which reject on failure), the
value `getStoredGuestId()` resolves to (`null` when the file is
missing), the crypto library, the clock and the completed remote
response `(status, parsed JSON body)`. -/
structure Env where
  authToken : Except String String
  ct0 : Except String String
  storedGuestId : Option String
  crypto : CryptoLib
  now : Nat
  response : Nat × JValue

/-- The error thrown when no guest id is available. -/
def guestIdError : String := "Guest ID not found. Please run authentication first."

/-- `guestID = await getStoredGuestId(); if (!guestID) throw ...` —
note `""` is falsy. -/
def resolveStoredGuestId (env : Env) : Except String String :=
  match env.storedGuestId with
  | some gid => if gid = "" then .error guestIdError else .ok gid
  | none => .error guestIdError

/-- `if (!guestID) { ... }` around the stored-guest-id fallback
(a `null` or `""` override falls back to storage). -/
def resolveGuestId (env : Env) (guestID : Option String) : Except String String :=
  match guestID with
  | some gid => if gid = "" then resolveStoredGuestId env else .ok gid
  | none => resolveStoredGuestId env

/-- `createDirectPost(content, guestID)` (first document, lines 22-188):
setup failures reject; once the remote call completed, the outcome is
always the interpreted result value. -/
def createDirectPost (env : Env) (content : String) (guestID : Option String) :
    Except String PostResult := do
  let authToken ← env.authToken
  let ct0 ← env.ct0
  let gid ← resolveGuestId env guestID
  let xpff := generateXPFF env.crypto gid env.now
  let _request := buildPostRequest authToken ct0 xpff content
  let (status, body) := env.response
  pure (interpretCreate status body)

/-- `replyDirectToPost(content, postUrl, guestID)` (first document,
lines 197-386): the tweet id is extracted from the URL before anything
else and a failed extraction rejects; remote outcomes are returned as
values. -/
def replyDirectToPost (env : Env) (content postUrl : String)
    (guestID : Option String) : Except String ReplyResult := do
  let tweetIdString ← (match extractTweetId postUrl with
    | none => Except.error "Invalid post URL format"
    | some tid => Except.ok tid)
  let authToken ← env.authToken
  let ct0 ← env.ct0
  let gid ← resolveGuestId env guestID
  let xpff := generateXPFF env.crypto gid env.now
  let bodyString := serializeJ (replyBodyObj content tweetIdString)
  let _headers := goHeaders authToken ct0 xpff bodyString
  let (status, body) := env.response
  pure (interpretReply status body tweetIdString)

/-! ### The "403 fix" variant (second document in the same file) -/

/-- The value the "403 fix" variant's `createDirectPost` resolves to on
success. -/
structure Fix403Result where
  success : Bool
  message : String
  timestamp : String
  response : JValue

/-- Response handling of the "403 fix" variant's `createDirectPost`
(second document, lines 585-606): a 403 throws a dedicated auth error,
a 200 resolves to a success value, and every other status throws a
generic status error.  `ts` is the ambient `new Date().toISOString()`. -/
def fix403PostOutcome (status : Nat) (body : JValue) (ts : String) :
    Except String Fix403Result :=
  if status = 403 then
    .error ("Direct post failed with 403 Forbidden - Auth error: " ++ serializeJ body)
  else if status = 200 then
    .ok { success := true, message := "Post published successfully via direct API",
          timestamp := ts, response := body }
  else
    .error ("Direct post failed with status " ++ toString status)

/-! ### Claims about the direct-API pipeline -/

/-- Counterexample for C4 as stated: in the main pipeline a 403 response
produces exactly the generic non-200 failure result — no auth/anti-bot
failure-class tag exists on the returned value; it differs from the 500
result only in the raw status number. -/
theorem C4_counterexample :
    interpretCreate 403 (.objJ []) =
      { interpretCreate 500 (.objJ []) with status := 403 } := rfl

/-- C4 (amended): the main pipeline returns for a 403 the same generic
failure result as for any other non-200 status (only the preserved raw
status number differs; there is no failure-class tag), for posts and
replies alike; the "403 fix" variant does distinguish a 403, but by
raising a dedicated `403 Forbidden - Auth error` exception instead of
returning a tagged result, while other non-200 statuses raise a generic
status exception. -/
theorem C4_403_handling (body : JValue) (tid ts : String) (s : Nat)
    (hs200 : s ≠ 200) (hs403 : s ≠ 403) :
    interpretCreate 403 body = { interpretCreate s body with status := 403 } ∧
    interpretReply 403 body tid = { interpretReply s body tid with status := 403 } ∧
    fix403PostOutcome 403 body ts =
      .error ("Direct post failed with 403 Forbidden - Auth error: " ++ serializeJ body) ∧
    fix403PostOutcome s body ts =
      .error ("Direct post failed with status " ++ toString s) := by
  refine ⟨?_, ?_, ?_, ?_⟩
  · simp [interpretCreate, hs200]
  · simp [interpretReply, hs200]
  · simp [fix403PostOutcome]
  · simp [fix403PostOutcome, hs200, hs403]

/-- Witness for C4 (amended) at status 500 and an empty-array body. -/
theorem C4_witness :
    (500 : Nat) ≠ 200 ∧ (500 : Nat) ≠ 403 ∧
      (interpretCreate 403 (.arrJ []) =
          { interpretCreate 500 (.arrJ []) with status := 403 } ∧
        interpretReply 403 (.arrJ []) "1" =
          { interpretReply 500 (.arrJ []) "1" with status := 403 } ∧
        fix403PostOutcome 403 (.arrJ []) "" =
          .error ("Direct post failed with 403 Forbidden - Auth error: " ++
            serializeJ (.arrJ [])) ∧
        fix403PostOutcome 500 (.arrJ []) "" =
          .error ("Direct post failed with status " ++ toString 500)) :=
  ⟨by decide, by decide,
    C4_403_handling (.arrJ []) "1" "" 500 (by decide) (by decide)⟩

/-- C5: a 200 response whose JSON body carries an `errors` array is
interpreted as failure by both the post and the reply interpreter, even
when a created-resource id is present in the body: the soft failure is
checked explicitly and overrides the id-based success. -/
theorem C5_soft_failure (body : JValue) (es : List JValue) (tid : String)
    (herr : jGet body "errors" = some (.arrJ es)) :
    (interpretCreate 200 body).success = false ∧
      (interpretReply 200 body tid).success = false := by
  constructor
  · simp [interpretCreate, herr, jTruthy]
  · simp [interpretReply, herr, jTruthy]

/-- A 200 body carrying both a created `rest_id` and an `errors` array. -/
def softFailBody : JValue :=
  .objJ [("data", .objJ [("create_tweet", .objJ [("tweet_results", .objJ
            [("result", .objJ [("rest_id", .strJ "9")])])])]),
         ("errors", .arrJ [])]

/-- Witness for C5: `softFailBody` has both a `rest_id` and an `errors`
array, yet both interpreters report failure. -/
theorem C5_witness :
    jGet softFailBody "errors" = some (.arrJ []) ∧
      restIdOfBody softFailBody = some (.strJ "9") ∧
      (interpretCreate 200 softFailBody).success = false ∧
      (interpretReply 200 softFailBody "1").success = false :=
  ⟨rfl, rfl, (C5_soft_failure softFailBody [] "1" rfl).1,
    (C5_soft_failure softFailBody [] "1" rfl).2⟩

/-- C6: both operations reject before the remote call when the guest id
is missing (no override and nothing stored), and otherwise — whenever
setup succeeded and the remote call completed with any status whatsoever
— they resolve to the interpreted result value: remote-side rejections
are encoded in the result, never raised. -/
theorem C6_remote_outcomes_as_values (env : Env)
    (content url tid g authToken ct0 : String) (status : Nat) (body : JValue)
    (hauth : env.authToken = .ok authToken) (hct0 : env.ct0 = .ok ct0)
    (hresp : env.response = (status, body)) (hext : extractTweetId url = some tid) :
    (env.storedGuestId = none →
      createDirectPost env content none = .error guestIdError ∧
      replyDirectToPost env content url none = .error guestIdError) ∧
    (env.storedGuestId = some g → g ≠ "" →
      createDirectPost env content none = .ok (interpretCreate status body) ∧
      replyDirectToPost env content url none = .ok (interpretReply status body tid)) := by
  constructor
  · intro hg
    constructor
    · simp only [createDirectPost, bind, Except.bind, hauth, hct0, resolveGuestId,
        resolveStoredGuestId, hg]
    · simp only [replyDirectToPost, bind, Except.bind, hext, hauth, hct0,
        resolveGuestId, resolveStoredGuestId, hg]
  · intro hg hge
    constructor
    · simp only [createDirectPost, bind, Except.bind, hauth, hct0, resolveGuestId,
        resolveStoredGuestId, hg, if_neg hge, hresp, pure, Except.pure]
    · simp only [replyDirectToPost, bind, Except.bind, hext, hauth, hct0,
        resolveGuestId, resolveStoredGuestId, hg, if_neg hge, hresp, pure, Except.pure]

/-- A concrete environment: setup succeeds, guest id `"g1"` stored, and
the remote call completed with a 403. -/
def envEx : Env :=
  { authToken := .ok "tok", ct0 := .ok "csrf", storedGuestId := some "g1",
    crypto := toyCrypto, now := 0, response := (403, .objJ []) }

/-- Witness for C6: in `envEx` the 403 outcome is returned as a value by
both operations. -/
theorem C6_witness :
    extractTweetId "https://x.com/u/status/5" = some "5" ∧
      createDirectPost envEx "hello" none = .ok (interpretCreate 403 (.objJ [])) ∧
      replyDirectToPost envEx "hello" "https://x.com/u/status/5" none =
        .ok (interpretReply 403 (.objJ []) "5") := by
  have h := C6_remote_outcomes_as_values envEx "hello" "https://x.com/u/status/5" "5"
    "g1" "tok" "csrf" 403 (.objJ []) rfl rfl rfl (by decide)
  exact ⟨by decide, (h.2 rfl (by decide)).1, (h.2 rfl (by decide)).2⟩

/-- C7: the assembled reply request's body sets `variables.tweet_text`
to the content with exactly one appended newline and
`variables.reply.in_reply_to_tweet_id` to the extracted id as a JSON
string value — by construction never a number, even for purely numeric
ids. -/
theorem C7_reply_body_fields (authToken ct0 xpff content postUrl tid : String)
    (hext : extractTweetId postUrl = some tid) :
    ∃ req, buildReplyRequest authToken ct0 xpff content postUrl = .ok req ∧
      req.body = replyBodyObj content tid ∧
      jChain (jGet (replyBodyObj content tid) "variables") "tweet_text" =
        some (.strJ (content ++ "\n")) ∧
      jChain (jChain (jGet (replyBodyObj content tid) "variables") "reply")
        "in_reply_to_tweet_id" = some (.strJ tid) := by
  refine ⟨{ url := createTweetUrl,
            headers := goHeaders authToken ct0 xpff (serializeJ (replyBodyObj content tid)),
            body := replyBodyObj content tid,
            bodyString := serializeJ (replyBodyObj content tid) }, ?_, rfl, rfl, rfl⟩
  simp only [buildReplyRequest, hext]

/-- Witness for C7 at the numeric id `12345`. -/
theorem C7_witness :
    extractTweetId "https://x.com/u/status/12345" = some "12345" ∧
      ∃ req, buildReplyRequest "tok" "csrf" "xp" "hello"
          "https://x.com/u/status/12345" = .ok req ∧
        req.body = replyBodyObj "hello" "12345" ∧
        jChain (jGet (replyBodyObj "hello" "12345") "variables") "tweet_text" =
          some (.strJ ("hello" ++ "\n")) ∧
        jChain (jChain (jGet (replyBodyObj "hello" "12345") "variables") "reply")
          "in_reply_to_tweet_id" = some (.strJ "12345") :=
  ⟨by decide, C7_reply_body_fields "tok" "csrf" "xp" "hello"
    "https://x.com/u/status/12345" "12345" (by decide)⟩

/-- C8: target-id extraction returns the digit run after `/status/` for
the sample permalink, fails on a permalink with no digits after
`/status/` and on a non-URL, and every extraction failure makes the
reply assembler (and the whole reply operation) refuse with the
`Invalid post URL format` error. -/
theorem C8_extract_id (authToken ct0 xpff content : String) :
    extractTweetId "https://site/user/status/12345" = some "12345" ∧
    extractTweetId "https://site/user/status/" = none ∧
    extractTweetId "not a url" = none ∧
    (∀ url, extractTweetId url = none →
      buildReplyRequest authToken ct0 xpff content url =
        .error "Invalid post URL format") ∧
    (∀ env url guestID, extractTweetId url = none →
      replyDirectToPost env content url guestID =
        .error "Invalid post URL format") := by
  refine ⟨by decide, by decide, by decide, ?_, ?_⟩
  · intro url h
    simp only [buildReplyRequest, h]
  · intro env url guestID h
    simp only [replyDirectToPost, bind, Except.bind, h]

/-- Witness for C8 at `"not a url"`. -/
theorem C8_witness :
    extractTweetId "not a url" = none ∧
      buildReplyRequest "tok" "csrf" "xp" "hello" "not a url" =
        .error "Invalid post URL format" ∧
      replyDirectToPost envEx "hello" "not a url" none =
        .error "Invalid post URL format" :=
  ⟨by decide,
    (C8_extract_id "tok" "csrf" "xp" "hello").2.2.2.1 "not a url" (by decide),
    (C8_extract_id "tok" "csrf" "xp" "hello").2.2.2.2 envEx "not a url" none (by decide)⟩

/-- C9: in every assembled request the `Content-Length` header is the
decimal string of the UTF-8 byte length of the exact serialized body
string (computed after serialization), for posts and replies and for
every content string; the final conjuncts exhibit a multi-byte content
character on which byte length and character length differ. -/
theorem C9_content_length (authToken ct0 xpff content postUrl tid : String)
    (hext : extractTweetId postUrl = some tid) :
    ((buildPostRequest authToken ct0 xpff content).headers.lookup "Content-Length" =
      some (toString (byteLength (buildPostRequest authToken ct0 xpff content).bodyString))) ∧
    ((buildPostRequest authToken ct0 xpff content).bodyString =
      serializeJ (buildPostRequest authToken ct0 xpff content).body) ∧
    (∀ req, buildReplyRequest authToken ct0 xpff content postUrl = .ok req →
      req.headers.lookup "Content-Length" =
          some (toString (byteLength req.bodyString)) ∧
        req.bodyString = serializeJ req.body) ∧
    serializeJ (.strJ "é") = "\"é\"" ∧
    byteLength (serializeJ (.strJ "é")) = 4 ∧
    (serializeJ (.strJ "é")).length = 3 := by
  refine ⟨rfl, rfl, ?_, by decide, by decide, by decide⟩
  intro req hreq
  simp only [buildReplyRequest, hext, Except.ok.injEq] at hreq
  rw [← hreq]
  exact ⟨rfl, rfl⟩

/-- Witness for C9 at the multi-byte content `"héllo"`. -/
theorem C9_witness :
    extractTweetId "https://x.com/u/status/77" = some "77" ∧
      (((buildPostRequest "t" "c" "x" "héllo").headers.lookup "Content-Length" =
        some (toString (byteLength (buildPostRequest "t" "c" "x" "héllo").bodyString))) ∧
      ((buildPostRequest "t" "c" "x" "héllo").bodyString =
        serializeJ (buildPostRequest "t" "c" "x" "héllo").body) ∧
      (∀ req, buildReplyRequest "t" "c" "x" "héllo"
          "https://x.com/u/status/77" = .ok req →
        req.headers.lookup "Content-Length" =
            some (toString (byteLength req.bodyString)) ∧
          req.bodyString = serializeJ req.body) ∧
      serializeJ (.strJ "é") = "\"é\"" ∧
      byteLength (serializeJ (.strJ "é")) = 4 ∧
      (serializeJ (.strJ "é")).length = 3) :=
  ⟨by decide, C9_content_length "t" "c" "x" "héllo"
    "https://x.com/u/status/77" "77" (by decide)⟩

end XBot
